import Mathlib

/-!
Verification development for the ChatBI (Lite) application (`app.py`).

The file shallowly embeds the algorithmic core of the application:
Python values that flow through the code-execution namespaces are modelled
by the inductive type `PyVal`; a pandas `DataFrame` is modelled as a column
header list plus row-major cell lists, a pandas `Series` as a column label
plus a cell list, a Python `dict` as an association list, and numbers as
exact rationals (floating-point rounding is not modelled).  Each definition
is translated directly from the corresponding function or code block of
`app.py`; comments cite the behaviour being embedded.
-/

set_option autoImplicit false

namespace ChatBI

/-- A Python value as it appears in the execution namespaces of `app.py`.
`vNone` is Python `None`; `vNum` models an `int`/`float` as an exact
rational; `vObj` is an arbitrary other object carrying its printed
representation; `vSet` is a `set` (the one builtin for which
`pd.DataFrame([res])` raises, exercising the string fallback of
`normalize_result`); `vSeries name values` models `pd.Series` where `name`
is the column label that `to_frame()` would produce; `vDataFrame cols rows`
models `pd.DataFrame` with row-major cells. -/
inductive PyVal where
  | vNone
  | vNum (q : Rat)
  | vStr (s : String)
  | vObj (rep : String)
  | vList (elems : List PyVal)
  | vSet (elems : List PyVal)
  | vDict (entries : List (PyVal × PyVal))
  | vSeries (name : String) (values : List PyVal)
  | vDataFrame (cols : List String) (rows : List (List PyVal))

/-- Printed representation of a number, `str(x)` for the exact rationals we
use in place of Python numbers (integers print as their digits; the decimal
expansion of non-integral floats is not modelled). -/
def ratPyStr (q : Rat) : String :=
  if q.den = 1 then toString q.num else toString q.num ++ "/" ++ toString q.den

/-- Fuel-bounded model of Python `str(...)`.  Only the branches reachable
from `normalize_result`'s string fallback matter to any theorem; nested
containers are rendered up to the given depth. -/
def pyStrF : Nat → PyVal → String
  | _, .vNone => "None"
  | _, .vNum q => ratPyStr q
  | _, .vStr s => s
  | _, .vObj r => r
  | 0, _ => "..."
  | n + 1, .vList l => "[" ++ String.intercalate ", " (l.map (pyStrF n)) ++ "]"
  | n + 1, .vSet l => "\x7b" ++ String.intercalate ", " (l.map (pyStrF n)) ++ "\x7d"
  | n + 1, .vDict es =>
      "\x7b" ++ String.intercalate ", "
        (es.map fun kv => pyStrF n kv.1 ++ ": " ++ pyStrF n kv.2) ++ "\x7d"
  | n + 1, .vSeries name vals =>
      "Series(" ++ name ++ ", " ++ String.intercalate ", " (vals.map (pyStrF n)) ++ ")"
  | _ + 1, .vDataFrame cols _ => "DataFrame(" ++ String.intercalate ", " cols ++ ")"

/-- `str(res)`, as used by the last-resort branch of `normalize_result`. -/
def pyStr (v : PyVal) : String := pyStrF 100 v

/-- `normalize_result(res)` (app.py lines 185-192):

    if isinstance(res, pd.DataFrame): return res
    if isinstance(res, pd.Series): return res.to_frame()
    if isinstance(res, dict):
        try: return pd.DataFrame(list(res.items()), columns=['指标', '数值'])
        except: pass
    try: return pd.DataFrame([res])
    except: return pd.DataFrame({"Result": [str(res)]})

A `dict` always frames successfully (0 rows for an empty dict, 2 columns).
`pd.DataFrame([res])` succeeds for scalars/objects (one row, one column
labelled `0`) and for lists (one row, columns `0..n-1`); it raises for a
`set`, which is the value class that reaches the stringified fallback. -/
def normalize_result : PyVal → PyVal
  | .vDataFrame cols rows => .vDataFrame cols rows
  | .vSeries name values => .vDataFrame [name] (values.map fun v => [v])
  | .vDict entries => .vDataFrame ["指标", "数值"] (entries.map fun kv => [kv.1, kv.2])
  | .vSet elems => .vDataFrame ["Result"] [[.vStr (pyStr (.vSet elems))]]
  | .vList elems => .vDataFrame ((List.range elems.length).map toString) [elems]
  | res => .vDataFrame ["0"] [[res]]

/-- Row count of a normalized table (0 for non-tables). -/
def dfRows : PyVal → Nat
  | .vDataFrame _ rows => rows.length
  | _ => 0

/-- Column count of a normalized table (0 for non-tables). -/
def dfCols : PyVal → Nat
  | .vDataFrame cols _ => cols.length
  | _ => 0

/-- The scalar/object inputs of `normalize_result` that take the
`pd.DataFrame([res])` one-row-one-column branch or, for a `set`, the
stringified one-row-one-column fallback. -/
def isScalarLike : PyVal → Bool
  | .vNone => true
  | .vNum _ => true
  | .vStr _ => true
  | .vObj _ => true
  | .vSet _ => true
  | _ => false

/-! ### Display formatting (`format_df_for_display`, app.py lines 194-213) -/

/-- Boolean prefix test on character lists. -/
def prefixMatch : List Char → List Char → Bool
  | [], _ => true
  | _ :: _, [] => false
  | a :: as, b :: bs => a == b && prefixMatch as bs

/-- Boolean infix (substring) test on character lists. -/
def infixMatch (needle : List Char) : List Char → Bool
  | [] => prefixMatch needle []
  | b :: rest => prefixMatch needle (b :: rest) || infixMatch needle rest

/-- Python substring test `needle in hay`. -/
def strContains (hay needle : String) : Bool :=
  infixMatch needle.toList hay.toList

/-- Round `q * scale` to the nearest integer, ties to even — the rounding
used by Python `format` (values are modelled as exact rationals).
Computed on the numerator `n = num * scale` and denominator `d`:
the floor is `n.fdiv d`, the fractional part is `r / d` with
`r = n - floor * d`, and `r / d` compares to `1/2` as `2r` to `d`. -/
def roundHalfEvenScaled (q : Rat) (scale : Nat) : Int :=
  let n : Int := q.num * (scale : Int)
  let d : Int := (q.den : Int)
  let f : Int := Int.fdiv n d
  let r : Int := n - f * d
  if 2 * r < d then f
  else if d < 2 * r then f + 1
  else if f % 2 = 0 then f else f + 1

/-- Round to the nearest integer, ties to even. -/
def roundHalfEven (q : Rat) : Int :=
  roundHalfEvenScaled q 1

/-- Group a digit list (least-significant digit first) into blocks of 3. -/
def chunk3 : List Char → List (List Char)
  | [] => []
  | a :: b :: c :: rest => [a, b, c] :: chunk3 rest
  | l => [l]

/-- Insert thousands separators into the decimal digits of `n`. -/
def natWithCommas (n : Nat) : String :=
  String.mk ((List.intercalate [','] (chunk3 (toString n).toList.reverse)).reverse)

/-- Two-digit zero-padded rendering of `n < 100`. -/
def pad2 (n : Nat) : String :=
  if n < 10 then "0" ++ toString n else toString n

/-- Python `"{:,.0f}".format(x)`: round half-even to an integer, thousands
separators, a sign also on a negative value that rounds to zero
(`q.num < 0` is `q < 0`). -/
def fmtComma0 (q : Rat) : String :=
  let r := roundHalfEven q
  (if r < 0 ∨ (r = 0 ∧ q.num < 0) then "-" else "") ++ natWithCommas r.natAbs

/-- Python `"{:,.2f}".format(x)`: two decimals (the value scaled by 100 and
rounded half-even), thousands separators on the integer part only. -/
def fmtComma2 (q : Rat) : String :=
  let scaled := roundHalfEvenScaled q 100
  let a := scaled.natAbs
  (if scaled < 0 ∨ (scaled = 0 ∧ q.num < 0) then "-" else "") ++
    natWithCommas (a / 100) ++ "." ++ pad2 (a % 100)

/-- Python `f"{x:.1%}"`: multiply by 100, one decimal (the value scaled by
1000 and rounded half-even), trailing `%`, no thousands separators. -/
def fmtPercent (q : Rat) : String :=
  let scaled := roundHalfEvenScaled q 1000
  let a := scaled.natAbs
  (if scaled < 0 ∨ (scaled = 0 ∧ q.num < 0) then "-" else "") ++
    toString (a / 10) ++ "." ++ toString (a % 10) ++ "%"

/-- `percent_keywords` of `format_df_for_display`. -/
def percent_keywords : List String :=
  ["Rate", "Ratio", "Share", "Percent", "Pct", "YoY", "CAGR", "率", "比", "占比", "份额"]

/-- `exclude_keywords` of `format_df_for_display`. -/
def exclude_keywords : List String :=
  ["Value", "Amount", "Qty", "Volume", "Contribution", "Abs", "额", "量"]

/-- `pd.api.types.is_numeric_dtype` on a column, modelled on cell contents:
a column is numeric when every cell is a number or a missing value
(`NaN` is modelled as `vNone`). -/
def is_numeric_dtype (cells : List PyVal) : Bool :=
  cells.all fun c =>
    match c with
    | .vNum _ => true
    | .vNone => true
    | _ => false

/-- The per-column transformation applied by the loop body of
`format_df_for_display`: for a numeric-dtype column, percent formatting
when the column name hits a percent keyword and no exclude keyword,
otherwise integer/decimal formatting chosen by whether every non-missing
value is integral (`(df_fmt[col].dropna() % 1 == 0).all()`); non-numeric
columns are left untouched. Missing values render as `"-"`
(`if pd.notnull(x) ... else "-"`). -/
def colTransform (name : String) (cells : List PyVal) : PyVal → PyVal :=
  if is_numeric_dtype cells then
    let is_percent := percent_keywords.any fun k => strContains name k
    let has_exclude := exclude_keywords.any fun k => strContains name k
    if is_percent && !has_exclude then
      fun c =>
        match c with
        | .vNum q => .vStr (fmtPercent q)
        | _ => .vStr "-"
    else
      let is_integer := cells.all fun c =>
        match c with
        | .vNum q => q.den == 1
        | _ => true
      fun c =>
        match c with
        | .vNum q => .vStr (if is_integer then fmtComma0 q else fmtComma2 q)
        | _ => .vStr "-"
  else id

/-- Column `j` of a row-major cell matrix. -/
def getCol (rows : List (List PyVal)) (j : Nat) : List PyVal :=
  rows.map fun r => r.getD j .vNone

/-- The pure value-level effect of the formatting loop of
`format_df_for_display` on the copied frame: every column is replaced by
its transformed cells. -/
def format_table (cols : List String) (rows : List (List PyVal)) : List (List PyVal) :=
  let tfs : List (PyVal → PyVal) := cols.mapIdx fun j name => colTransform name (getCol rows j)
  rows.map fun r => r.mapIdx fun j c => (tfs.getD j id) c

/-- An object store for pandas frames: frames are mutable Python objects,
so mutation is modelled by indexing frames in a store. -/
abbrev FrameStore := List (List String × List (List PyVal))

/-- `format_df_for_display(df_raw)` at the object level:
`df_fmt = df_raw.copy()` allocates a fresh frame object, the loop then
writes formatted columns only into that copy (`df_fmt[col] = ...`), and the
copy's reference is returned.  A non-frame argument is returned unchanged
(`if not isinstance(df_raw, pd.DataFrame): return df_raw`), modelled by the
dangling-reference case. -/
def format_df_for_display (store : FrameStore) (ref : Nat) : FrameStore × Nat :=
  match List.get? (α := List String × List (List PyVal)) store ref with
  | some df => (store ++ [(df.1, format_table df.1 df.2)], store.length)
  | none => (store, ref)

/-! ### Execution namespaces and result extraction
(app.py lines 552-595 for simple mode, 638-677 for analysis mode) -/

/-- The `execution_context` dict passed to `exec`: identifiers bound to
Python values, in insertion order. -/
abbrev PyNamespace := List (String × PyVal)

/-- `execution_context.get(key)`: `none` when the key is absent. -/
def nsGet (ctx : PyNamespace) (key : String) : Option PyVal :=
  List.lookup key ctx

/-- `v is None`. -/
def isNoneV : PyVal → Bool
  | .vNone => true
  | _ => false

/-- `isinstance(v, pd.DataFrame)`. -/
def isDataFrameV : PyVal → Bool
  | .vDataFrame _ _ => true
  | _ => false

/-- Python truthiness `bool(v)`.  `none` marks the values on which `bool`
raises: pandas frames and series raise
`ValueError: The truth value ... is ambiguous`. -/
def pyTruth : PyVal → Option Bool
  | .vNone => some false
  | .vNum q => some (decide (q.num ≠ 0))
  | .vStr s => some (decide (s ≠ ""))
  | .vObj _ => some true
  | .vList l => some (!l.isEmpty)
  | .vSet l => some (!l.isEmpty)
  | .vDict d => some (!d.isEmpty)
  | .vSeries _ _ => none
  | .vDataFrame _ _ => none

/-- Truthiness of an optional value: a missing key gives Python `None`,
which is falsy. -/
def optTruth (o : Option PyVal) : Option Bool :=
  match o with
  | none => some false
  | some v => pyTruth v

/-- Outcome of the simple-mode extraction block. -/
inductive SimpleExtract where
  | tables (named : List (PyVal × PyVal))
  | noData
  | raised

/-- Simple-mode result extraction (app.py lines 561-595):

    final_results = execution_context.get('results')
    if not final_results and execution_context.get('result') is not None:
        final_results = \x7b"查询结果": execution_context.get('result')\x7d
    if final_results:
        formatted_results = \x7bk: normalize_result(v) for k, v in final_results.items()\x7d
        ...render and append...
    else:
        st.error("未提取到数据")

No namespace scan occurs in this mode.  `raised` marks the executions on
which the block itself raises: truthiness of a frame-valued `results`
rebinding, or `.items()` on a truthy non-dict rebinding (the exception then
escapes to the top-level handler). -/
def extract_simple (ctx : PyNamespace) : SimpleExtract :=
  let fr := nsGet ctx "results"
  match optTruth fr with
  | none => .raised
  | some t =>
    let fr2 : Option PyVal :=
      if t then fr
      else
        match nsGet ctx "result" with
        | some v => if isNoneV v then fr else some (.vDict [(.vStr "查询结果", v)])
        | none => fr
    match fr2 with
    | none => .noData
    | some v =>
      match pyTruth v with
      | none => .raised
      | some false => .noData
      | some true =>
        match v with
        | .vDict entries => .tables (entries.map fun kv => (kv.1, normalize_result kv.2))
        | _ => .raised

/-- Analysis-mode per-angle result extraction (app.py lines 647-651):

    if execution_context.get('result') is None:
        for k, v in list(execution_context.items()):
            if isinstance(v, pd.DataFrame) and k != 'df':
                execution_context['result'] = v; break
    if execution_context.get('result') is not None: ...use it...
    else: st.error("该角度未返回数据")

Returns the adopted value, or `none` for the "该角度未返回数据" branch.
No `results` mapping is consulted in this mode. -/
def extract_angle (ctx : PyNamespace) : Option PyVal :=
  let r0 : Option PyVal :=
    match nsGet ctx "result" with
    | some v => if isNoneV v then none else some v
    | none => none
  match r0 with
  | some v => some v
  | none =>
    match ctx.find? fun kv => isDataFrameV kv.2 && kv.1 != "df" with
    | some kv => some kv.2
    | none => none

/-- `execution_context.get('result') is None`: true when the `result` slot
is `None` or absent. -/
def resultSlotNone (ctx : PyNamespace) : Bool :=
  match nsGet ctx "result" with
  | some v => isNoneV v
  | none => true

/-- Outcome of executing one synthesized program: either it raises, or it
leaves a final namespace. -/
inductive ExecResult where
  | raises
  | ok (ns : PyNamespace)

/-- One planned angle: its title and the behaviour of its generated code. -/
structure AngleSpec where
  title : String
  exec : ExecResult

/-- The analysis-mode per-angle loop (app.py lines 626-677): each angle's
`exec` and extraction run inside a per-angle `try`, so a raising angle only
shows an error and contributes nothing, while every angle that produced a
result appends `(title, normalize_result result)` to `angles_data`.
The narrative model call is modelled as succeeding. -/
def run_angles (angles : List AngleSpec) : List (String × PyVal) :=
  angles.filterMap fun a =>
    match a.exec with
    | .raises => none
    | .ok ns => (extract_angle ns).map fun v => (a.title, normalize_result v)

/-- The assistant message appended for an analysis-mode turn. -/
inductive AssistantMsg where
  | analysisReport (records : List (String × PyVal))
  | planFailureText

/-- The analysis-mode turn after planning (app.py lines 619-702).
`plan = none` models a planning response without a usable `angles` list:
`st.error("无法生成分析方案")` and the text "分析生成失败" is appended.
With a plan, the loop runs; synthesis and the report happen only under
`if angles_data:` — when no angle produced a result the branch body is
skipped and nothing at all is appended (there is no `else`). -/
def run_analysis_mode (plan : Option (List AngleSpec)) : Option AssistantMsg :=
  match plan with
  | none => some .planFailureText
  | some angles =>
    let recs := run_angles angles
    if recs.isEmpty then none
    else some (.analysisReport recs)

/-- User-visible outcome of a simple-mode turn. -/
inductive TurnOutcome where
  | reportSimple (tables : List (PyVal × PyVal))
  | noDataMsg
  | systemError

/-- The simple-mode turn around `exec(simple_json['code'], execution_context)`
(app.py lines 559-595 within the `try` of lines 496-704): an exception from
the execution propagates uncaught to the top-level handler
(`except Exception as e: st.error(f"系统错误: ...")`), one user-visible
error for the turn. -/
def handle_simple_exec (er : ExecResult) : TurnOutcome :=
  match er with
  | .raises => .systemError
  | .ok ns =>
    match extract_simple ns with
    | .tables t => .reportSimple t
    | .noData => .noDataMsg
    | .raised => .systemError

/-! ### Intent routing (app.py lines 498-524) -/

/-- `entries.get(key)` for a JSON-decoded dict whose relevant keys are
strings (JSON object keys are unique). -/
def dictGet (entries : List (PyVal × PyVal)) (key : String) : Option PyVal :=
  (entries.find? fun kv =>
    match kv.1 with
    | .vStr s => s == key
    | _ => false).map fun kv => kv.2

/-- The value `intent_type` holds after the routing block:

    try: intent_type = json.loads(router_resp.text).get('type', 'analysis')
    except: intent_type = 'analysis'

`parsed = none` is a `json.loads` failure; a non-dict JSON value makes
`.get` raise `AttributeError`, also caught; a dict without `'type'` takes
the `.get` default. -/
def routed_intent (parsed : Option PyVal) : PyVal :=
  match parsed with
  | none => .vStr "analysis"
  | some (.vDict entries) =>
    match dictGet entries "type" with
    | some v => v
    | none => .vStr "analysis"
  | some _ => .vStr "analysis"

/-- The category label successfully parsed from the router response, if
any: the response must be a JSON object whose `'type'` value is a string.
`none` is a parse failure — unparsable JSON (`parsed = none`), a non-object
response, a missing `'type'` key, or a non-string `'type'` value. -/
def parsedLabel (parsed : Option PyVal) : Option String :=
  match parsed with
  | some (.vDict entries) =>
    match dictGet entries "type" with
    | some (.vStr s) => some s
    | _ => none
  | _ => none

/-- The three turn modes. -/
inductive Mode where
  | simple
  | analysis
  | irrelevant

/-- Python `v == s` for a string literal `s` (non-strings never compare
equal to a string). -/
def pyEqStr (v : PyVal) (s : String) : Bool :=
  match v with
  | .vStr t => t == s
  | _ => false

/-- The mode dispatch (app.py lines 521-598):
`if intent_type == 'irrelevant': ... elif intent_type == 'simple': ...
else: <analysis>` — everything not equal to the first two labels takes the
analysis branch. -/
def dispatch_mode (it : PyVal) : Mode :=
  if pyEqStr it "irrelevant" then .irrelevant
  else if pyEqStr it "simple" then .simple
  else .analysis

/-! ### Retry/backoff (`safe_generate_content`, app.py lines 56-73) -/

/-- Outcome of one `client.models.generate_content` call: success, an
exception whose text contains `"429"` or `"RESOURCE_EXHAUSTED"` (the
rate-limit class), or any other exception. -/
inductive CallOutcome where
  | ok (v : Nat)
  | rateLimit
  | otherError

/-- How `safe_generate_content` terminates: a returned response, a
re-raised rate-limit error, a re-raised other error, or the implicit
`None` return when the loop body never runs (possible only for
`retries = 0`). -/
inductive CallResult where
  | success (v : Nat)
  | errRateLimit
  | errOther
  | noneReturned

/-- `base_delay = 10` (seconds). -/
def base_delay : Nat := 10

/-- The `for i in range(retries)` loop of `safe_generate_content`, from
iteration `i`.  `behavior j` is the outcome of the model call on attempt
`j`.  Returns (result, list of `time.sleep` delays in order, number of
attempts made):

    for i in range(retries):
        try: return client.models.generate_content(...)
        except Exception as e:
            if "429" in str(e) or "RESOURCE_EXHAUSTED" in str(e):
                if i < retries - 1:
                    wait_time = base_delay * (2 ** i); time.sleep(wait_time); continue
            raise e
-/
def sgcGo (behavior : Nat → CallOutcome) (i : Nat) : Nat → CallResult × List Nat × Nat
  | 0 => (.noneReturned, [], 0)
  | rem + 1 =>
    match behavior i with
    | .ok v => (.success v, [], 1)
    | .rateLimit =>
      if 0 < rem then
        let r := sgcGo behavior (i + 1) rem
        (r.1, base_delay * 2 ^ i :: r.2.1, r.2.2 + 1)
      else (.errRateLimit, [], 1)
    | .otherError => (.errOther, [], 1)

/-- `safe_generate_content(client, model_name, contents, config, retries=6)`
with the model service abstracted into `behavior`; the retry ceiling
defaults to 6 as in the source.  `sgcGo` recurses on the remaining
iteration count `rem = retries - i`, so `i < retries` is `0 < rem` and
`i < retries - 1` is `1 < rem`. -/
def safe_generate_content (behavior : Nat → CallOutcome) (retries : Nat := 6) :
    CallResult × List Nat × Nat :=
  sgcGo behavior 0 retries

/-- The backoff delays accumulated by `k` consecutive rate-limited
attempts starting at attempt `i`: `base_delay * 2 ^ i`, then
`base_delay * 2 ^ (i + 1)`, and so on. -/
def delaysFrom (i : Nat) : Nat → List Nat
  | 0 => []
  | k + 1 => base_delay * 2 ^ i :: delaysFrom (i + 1) k

/-! ### Temporal context (`analyze_time_structure`, app.py lines 130-167) -/

/-- One dataset column: its name and its cell values rendered as strings
(the period logic works on `str()` of the values throughout). -/
structure Column where
  name : String
  values : List String

/-- The bundle returned by `analyze_time_structure` on success. -/
structure TimeContext where
  col_name : String
  all_periods : List String
  max_q : String
  min_q : String
  mat_list : List String
  mat_list_prior : List String
  is_mat_complete : Bool
  ytd_list : List String
  ytd_list_prior : List String

/-- The period-column heuristic (app.py lines 131-136): the first column
whose name contains `'年季'`, `'Quarter'` or `'Date'` and whose first value
contains `'Q'` with length at most 6.  (On an empty column the source's
`df[col].iloc[0]` would raise; modelled as the column not matching.) -/
def detect_time_col (cols : List Column) : Option Column :=
  cols.find? fun c =>
    (strContains c.name "年季" || strContains c.name "Quarter" || strContains c.name "Date") &&
      match c.values.head? with
      | some v => strContains v "Q" && decide (v.length ≤ 6)
      | none => false

/-- `df[col].unique()`: the distinct values in order of first occurrence
(`seen` accumulates the values already emitted). -/
def uniqueAux (seen : List String) : List String → List String
  | [] => []
  | a :: rest =>
    if seen.contains a then uniqueAux seen rest
    else a :: uniqueAux (a :: seen) rest

/-- `df[col].unique().astype(str)` on the stringified column values. -/
def py_unique (l : List String) : List String :=
  uniqueAux [] l

/-- Boolean lexicographic `≤` on character lists, comparing code points as
Python string comparison does. -/
def charListLe : List Char → List Char → Bool
  | [], _ => true
  | _ :: _, [] => false
  | a :: as, b :: bs => decide (a < b) || (a == b && charListLe as bs)

/-- Boolean string comparison used by the sort (it agrees with the
`String` linear order, see `py_str_le_iff`). -/
def py_str_le (a b : String) : Bool :=
  charListLe a.toList b.toList

/-- Python `sorted(...)`: ascending stable sort on the lexicographic
string order. -/
def py_sorted (l : List String) : List String :=
  List.insertionSort (fun a b => py_str_le a b = true) l

/-- `re.search(r'(\d\x7b4\x7d)', s)`: the first position at which four
consecutive decimal digits start, returning those four digits. -/
def findYear4 : List Char → Option String
  | c1 :: rest =>
    match rest with
    | c2 :: c3 :: c4 :: _ =>
      if c1.isDigit && c2.isDigit && c3.isDigit && c4.isDigit then
        some (String.mk [c1, c2, c3, c4])
      else findYear4 rest
    | _ => none
  | [] => none

/-- `int(s)` on a string of decimal digits. -/
def digitsToNat (s : String) : Nat :=
  s.toList.foldl (fun n c => 10 * n + (c.toNat - '0'.toNat)) 0

/-- `str(int(curr_year) - 1)`. -/
def prevYearStr (curr_year : String) : String :=
  toString ((digitsToNat curr_year : Int) - 1)

/-- Replace every non-overlapping occurrence of `pat` (nonempty), scanning
left to right, as Python `str.replace` does.  The fuel is the length of the
scanned list, which bounds the recursion. -/
def replaceFuel (pat rep : List Char) : Nat → List Char → List Char
  | _, [] => []
  | 0, l => l
  | n + 1, c :: rest =>
    if prefixMatch pat (c :: rest) then
      rep ++ replaceFuel pat rep n ((c :: rest).drop pat.length)
    else c :: replaceFuel pat rep n rest

/-- Python `s.replace(pat, rep)`.  (An empty pattern cannot occur at the
call site: the pattern is always a four-digit year token.) -/
def pyReplace (s pat rep : String) : String :=
  if pat.toList.isEmpty then s
  else String.mk (replaceFuel pat.toList rep.toList s.toList.length s.toList)

/-- The YTD window pair (app.py lines 151-161):

    year_match = re.search(r'(\d\x7b4\x7d)', str(max_q))
    if year_match:
        curr_year = year_match.group(1)
        prev_year = str(int(curr_year) - 1)
        ytd_list = [p for p in sorted_periods if curr_year in str(p)]
        expected_priors = [str(p).replace(curr_year, prev_year) for p in ytd_list]
        ytd_list_prior = [p for p in sorted_periods if p in expected_priors]
-/
def ytdWindows (sorted_periods : List String) (max_q : String) :
    List String × List String :=
  match findYear4 max_q.toList with
  | none => ([], [])
  | some curr_year =>
    let prev_year := prevYearStr curr_year
    let ytd_list := sorted_periods.filter fun p => strContains p curr_year
    let expected_priors := ytd_list.map fun p => pyReplace p curr_year prev_year
    let ytd_list_prior := sorted_periods.filter fun p => expected_priors.contains p
    (ytd_list, ytd_list_prior)

/-- Builds the returned dict from the sorted distinct periods
(app.py lines 138-166).  Python slices: `[-4:]` is `drop (n - 4)`,
`[-8:-4]` is `(drop (n - 8)).take 4`, `[:-4]` is `take (n - 4)`. -/
def mkTimeContext (name : String) (sorted_periods : List String)
    (max_q min_q : String) : TimeContext :=
  let n := sorted_periods.length
  let mat_list := if 4 ≤ n then sorted_periods.drop (n - 4) else sorted_periods
  let matPrior : List String × Bool :=
    if 8 ≤ n then ((sorted_periods.drop (n - 8)).take 4, true)
    else if 4 ≤ n then (sorted_periods.take (n - 4), false)
    else ([], false)
  let ytd := ytdWindows sorted_periods max_q
  { col_name := name
    all_periods := sorted_periods
    max_q := max_q
    min_q := min_q
    mat_list := mat_list
    mat_list_prior := matPrior.1
    is_mat_complete := matPrior.2
    ytd_list := ytd.1
    ytd_list_prior := ytd.2 }

/-- `analyze_time_structure(df)` (app.py lines 130-167): detect the period
column; on failure return the error dict (`none` here); otherwise sort the
distinct labels (`sorted(df[time_col].unique().astype(str))`) and build the
window bundle.  The empty-periods fallthrough is unreachable when detection
succeeded, since detection required a first value. -/
def analyze_time_structure (cols : List Column) : Option TimeContext :=
  (detect_time_col cols).bind fun c =>
    let sorted_periods := py_sorted (py_unique c.values)
    match sorted_periods.getLast?, sorted_periods.head? with
    | some max_q, some min_q => some (mkTimeContext c.name sorted_periods max_q min_q)
    | _, _ => none

/-! ### Concrete example inputs used to instantiate the theorems -/

/-- A dataset with a detected period column holding 8 distinct quarters. -/
def cols0 : List Column :=
  [⟨"产品", ["A", "B"]⟩,
   ⟨"年季", ["2023Q1", "2023Q2", "2023Q3", "2023Q4", "2024Q1", "2024Q2", "2024Q3", "2024Q4",
            "2023Q1", "2024Q4"]⟩]

/-- The time context `analyze_time_structure` derives from `cols0`. -/
def ctx0 : TimeContext :=
  { col_name := "年季"
    all_periods := ["2023Q1", "2023Q2", "2023Q3", "2023Q4",
                    "2024Q1", "2024Q2", "2024Q3", "2024Q4"]
    max_q := "2024Q4"
    min_q := "2023Q1"
    mat_list := ["2024Q1", "2024Q2", "2024Q3", "2024Q4"]
    mat_list_prior := ["2023Q1", "2023Q2", "2023Q3", "2023Q4"]
    is_mat_complete := true
    ytd_list := ["2024Q1", "2024Q2", "2024Q3", "2024Q4"]
    ytd_list_prior := ["2023Q1", "2023Q2", "2023Q3", "2023Q4"] }

/-- A simple-mode namespace where the generated code populated neither
`results` nor `result` but did bind a DataFrame under the fresh name `t`. -/
def nsScanOnly : PyNamespace :=
  [("results", .vDict []), ("result", .vNone),
   ("t", .vDataFrame ["a"] [[.vNum (mkRat 1 1)]])]

/-- A simple-mode namespace whose code populated the `results` mapping. -/
def nsResults : PyNamespace :=
  [("results", .vDict [(.vStr "T", .vDataFrame ["a"] [[.vNum (mkRat 2 1)]])]),
   ("result", .vNone)]

/-- An angle whose code succeeded and assigned a one-cell frame to `result`. -/
def angOk1 : AngleSpec :=
  ⟨"角度一", .ok [("result", .vDataFrame ["v"] [[.vNum (mkRat 1 1)]])]⟩

/-- An angle whose code raised. -/
def angFail : AngleSpec := ⟨"角度二", .raises⟩

/-- Two more succeeding angles. -/
def angOk3 : AngleSpec :=
  ⟨"角度三", .ok [("result", .vDataFrame ["v"] [[.vNum (mkRat 3 1)]])]⟩

def angOk4 : AngleSpec :=
  ⟨"角度四", .ok [("result", .vDataFrame ["v"] [[.vNum (mkRat 4 1)]])]⟩

/-- A model behaviour that is rate-limited twice, then succeeds. -/
def behOkAfter2 : Nat → CallOutcome :=
  fun j => if j < 2 then .rateLimit else .ok 7

/-- A model behaviour that is rate-limited on every attempt. -/
def behAlwaysRL : Nat → CallOutcome := fun _ => .rateLimit

/-- A model behaviour that is rate-limited once, then fails otherwise. -/
def behOtherAfter1 : Nat → CallOutcome :=
  fun j => if j < 1 then .rateLimit else .otherError

/-- A router response whose label is none of the three categories. -/
def parsedBanana : Option PyVal :=
  some (.vDict [(.vStr "type", .vStr "banana")])

/-- A one-frame store. -/
def store0 : FrameStore := [(["x"], [[.vNum (mkRat 1 1)]])]

/-! ## Theorems -/

/-- C9: `normalize_result` is idempotent — applying it to its own output
returns that output unchanged, because every output is a `DataFrame` and a
`DataFrame` passes through the first branch untouched. -/
theorem normalize_result_idempotent :
    ∀ v : PyVal, normalize_result (normalize_result v) = normalize_result v := by
  intro v
  cases v <;> rfl

/-- C9 witness at a concrete non-table value. -/
theorem normalize_result_idempotent_witness :
    normalize_result (normalize_result (PyVal.vNum (mkRat 3 1))) =
      normalize_result (PyVal.vNum (mkRat 3 1)) :=
  normalize_result_idempotent (PyVal.vNum (mkRat 3 1))

/-- C2 counterexample: the claim promises at least one row and one column
for *every* input, but an empty table passes through `normalize_result`
unchanged with zero rows and zero columns. -/
theorem normalize_result_empty_counterexample :
    normalize_result (PyVal.vDataFrame [] []) = PyVal.vDataFrame [] [] ∧
      dfRows (normalize_result (PyVal.vDataFrame [] [])) = 0 ∧
      dfCols (normalize_result (PyVal.vDataFrame [] [])) = 0 :=
  ⟨rfl, rfl, rfl⟩

/-- C2 (amended): `normalize_result` is total and always returns a table;
a scalar/object input (including the stringified `set` fallback) yields a
one-row one-column table; a series yields one column preserving its row
count; a mapping yields two columns with one row per entry; a list yields
one row with one column per element; and a table input passes through
unchanged — hence empty tables, series and mappings yield tables with zero
rows. -/
theorem normalize_result_total (v : PyVal) :
    (∃ cols rows, normalize_result v = PyVal.vDataFrame cols rows) ∧
      (isScalarLike v = true →
        dfRows (normalize_result v) = 1 ∧ dfCols (normalize_result v) = 1) ∧
      (∀ name vals, v = PyVal.vSeries name vals →
        dfCols (normalize_result v) = 1 ∧ dfRows (normalize_result v) = vals.length) ∧
      (∀ es, v = PyVal.vDict es →
        dfCols (normalize_result v) = 2 ∧ dfRows (normalize_result v) = es.length) ∧
      (∀ elems, v = PyVal.vList elems →
        dfRows (normalize_result v) = 1 ∧ dfCols (normalize_result v) = elems.length) ∧
      (∀ cols rows, v = PyVal.vDataFrame cols rows → normalize_result v = v) := by
  refine ⟨?_, ?_, ?_, ?_, ?_, ?_⟩
  · cases v <;> exact ⟨_, _, rfl⟩
  · intro hs
    cases v <;> first | exact ⟨rfl, rfl⟩ | exact Bool.noConfusion hs
  · intro name vals hv
    subst hv
    exact ⟨rfl, by simp [normalize_result, dfRows]⟩
  · intro es hv
    subst hv
    exact ⟨rfl, by simp [normalize_result, dfRows]⟩
  · intro elems hv
    subst hv
    exact ⟨rfl, by simp [normalize_result, dfCols]⟩
  · intro cols rows hv
    subst hv
    rfl

/-- C2 witness: a scalar yields a one-row one-column table. -/
theorem normalize_result_total_witness :
    dfRows (normalize_result (PyVal.vNum (mkRat 5 1))) = 1 ∧
      dfCols (normalize_result (PyVal.vNum (mkRat 5 1))) = 1 :=
  (normalize_result_total (PyVal.vNum (mkRat 5 1))).2.1 rfl

/-- C10: `format_df_for_display` never mutates its input frame: every
pre-existing store entry is unchanged after the call, and the returned
reference points at a fresh copy holding the formatted cells. -/
theorem format_df_for_display_no_mutation (store : FrameStore) (ref j : Nat)
    (hj : j < store.length) :
    ((format_df_for_display store ref).1).get? j = store.get? j ∧
      (∀ df, store.get? ref = some df →
        ((format_df_for_display store ref).1).get? (format_df_for_display store ref).2 =
          some (df.1, format_table df.1 df.2)) := by
  unfold format_df_for_display
  cases h : List.get? store ref with
  | none =>
    refine ⟨rfl, ?_⟩
    intro df hdf
    cases hdf
  | some df0 =>
    refine ⟨?_, ?_⟩
    · simp [List.get?_eq_getElem?, List.getElem?_append_left hj]
    · intro df hdf
      cases hdf
      simp [List.get?_eq_getElem?, List.getElem?_append_right (Nat.le_refl _)]

/-- C10 witness on a one-frame store. -/
theorem format_df_for_display_no_mutation_witness :
    ((format_df_for_display store0 0).1).get? 0 = store0.get? 0 :=
  (format_df_for_display_no_mutation store0 0 0 (by decide)).1

/-- C8: whenever the response's returned label cannot be parsed into one
of the three category labels — unparsable JSON, a non-object response, a
missing or non-string `type` (all of which make `parsedLabel` `none` and
take the `except`/`.get`-default path), or an unknown label string — the
dispatch takes the analysis branch: the query is never dropped and no
exception escapes the routing block. -/
theorem intent_fallback_to_analysis (parsed : Option PyVal)
    (h : ∀ s : String, parsedLabel parsed = some s →
      s ≠ "simple" ∧ s ≠ "analysis" ∧ s ≠ "irrelevant") :
    dispatch_mode (routed_intent parsed) = Mode.analysis := by
  cases parsed with
  | none => rfl
  | some v =>
    cases v with
    | vDict entries =>
      cases hd : dictGet entries "type" with
      | none => simp [routed_intent, dispatch_mode, pyEqStr, hd]
      | some w =>
        cases w with
        | vStr s =>
          obtain ⟨h1, _, h3⟩ := h s (by simp [parsedLabel, hd])
          simp [routed_intent, hd, dispatch_mode, pyEqStr, h1, h3]
        | vNone => simp [routed_intent, dispatch_mode, pyEqStr, hd]
        | vNum q => simp [routed_intent, dispatch_mode, pyEqStr, hd]
        | vObj r => simp [routed_intent, dispatch_mode, pyEqStr, hd]
        | vList l => simp [routed_intent, dispatch_mode, pyEqStr, hd]
        | vSet l => simp [routed_intent, dispatch_mode, pyEqStr, hd]
        | vDict d => simp [routed_intent, dispatch_mode, pyEqStr, hd]
        | vSeries n vs => simp [routed_intent, dispatch_mode, pyEqStr, hd]
        | vDataFrame c r => simp [routed_intent, dispatch_mode, pyEqStr, hd]
    | vNone => rfl
    | vNum q => rfl
    | vStr s => rfl
    | vObj r => rfl
    | vList l => rfl
    | vSet l => rfl
    | vSeries n vs => rfl
    | vDataFrame c r => rfl

/-- C8 witness: all four parse-failure shapes — unparsable JSON, a
non-object response, an object without `type`, a non-string `type` — and
an unknown label all route to analysis. -/
theorem intent_fallback_witness :
    dispatch_mode (routed_intent none) = Mode.analysis ∧
      dispatch_mode (routed_intent (some (PyVal.vList []))) = Mode.analysis ∧
      dispatch_mode (routed_intent (some (PyVal.vDict []))) = Mode.analysis ∧
      dispatch_mode (routed_intent
        (some (PyVal.vDict [(PyVal.vStr "type", PyVal.vNum (mkRat 5 1))]))) =
        Mode.analysis ∧
      dispatch_mode (routed_intent parsedBanana) = Mode.analysis :=
  ⟨intent_fallback_to_analysis none (fun s hs => Option.noConfusion hs),
    intent_fallback_to_analysis (some (PyVal.vList [])) (fun s hs => Option.noConfusion hs),
    intent_fallback_to_analysis (some (PyVal.vDict [])) (fun s hs => Option.noConfusion hs),
    intent_fallback_to_analysis (some (PyVal.vDict [(PyVal.vStr "type", PyVal.vNum (mkRat 5 1))]))
      (fun s hs => Option.noConfusion hs),
    intent_fallback_to_analysis parsedBanana (by
      intro s hs
      have h2 : some "banana" = some s := hs
      injection h2 with h3
      subst h3
      exact ⟨by decide, by decide, by decide⟩)⟩

/-- C6: an exception in one angle's code is absorbed by that angle's
iteration — the loop's records are exactly the splice of the records of
the surrounding angles, so every sibling that produced a result keeps it —
while an exception during simple-mode execution surfaces as the single
top-level system error for the turn. -/
theorem angle_failure_isolated :
    (∀ (pre post : List AngleSpec) (a : AngleSpec), a.exec = ExecResult.raises →
        run_angles (pre ++ a :: post) = run_angles pre ++ run_angles post) ∧
      (∀ er : ExecResult, er = ExecResult.raises →
        handle_simple_exec er = TurnOutcome.systemError) := by
  constructor
  · intro pre post a ha
    simp [run_angles, List.filterMap_append, List.filterMap_cons, ha]
  · intro er h
    subst h
    rfl

/-- C6 witness: four angles of which the second raises yield three records. -/
theorem angle_failure_isolated_witness :
    run_angles [angOk1, angFail, angOk3, angOk4] =
        run_angles [angOk1] ++ run_angles [angOk3, angOk4] ∧
      (run_angles [angOk1, angFail, angOk3, angOk4]).length = 3 ∧
      handle_simple_exec ExecResult.raises = TurnOutcome.systemError :=
  ⟨angle_failure_isolated.1 [angOk1] [angOk3, angOk4] angFail rfl, rfl,
    angle_failure_isolated.2 ExecResult.raises rfl⟩

/-- C7 counterexample: with a plan of one angle whose code raises, zero
angles produce results and the orchestrator appends *nothing* — there is
no explicit "no findings" outcome (`none`), unlike the planning-failure
branch which appends an explicit failure text. -/
theorem zero_findings_silent_counterexample :
    run_analysis_mode (some [angFail]) = none ∧
      run_analysis_mode none = some AssistantMsg.planFailureText :=
  ⟨rfl, rfl⟩

/-- C7 (amended): if at least one angle produced a result, synthesis runs
unconditionally after the last angle and the report is appended; if zero
angles produced results the orchestrator terminates silently — no
synthesis and no appended outcome — which is distinct from the
planning-failure branch and its explicit failure message. -/
theorem analysis_synthesis_condition :
    (∀ angles : List AngleSpec, run_angles angles ≠ [] →
        run_analysis_mode (some angles) =
          some (AssistantMsg.analysisReport (run_angles angles))) ∧
      (∀ angles : List AngleSpec, run_angles angles = [] →
        run_analysis_mode (some angles) = none) ∧
      run_analysis_mode none = some AssistantMsg.planFailureText := by
  refine ⟨?_, ?_, rfl⟩
  · intro angles hne
    cases hr : run_angles angles with
    | nil => exact absurd hr hne
    | cons a l => simp [run_analysis_mode, hr]
  · intro angles hz
    simp [run_analysis_mode, hz]

/-- C7 witness: a one-angle plan that produces a record reaches synthesis. -/
theorem analysis_synthesis_witness :
    run_analysis_mode (some [angOk1]) =
      some (AssistantMsg.analysisReport (run_angles [angOk1])) :=
  analysis_synthesis_condition.1 [angOk1] (fun h => List.noConfusion h)

/-- C1 counterexample: in simple mode, with `results` and `result` both
unpopulated but a DataFrame bound in the namespace under the fresh name
`t` (≠ `df`), the claimed step (c) would adopt it; the code instead
reports "no data" — simple mode never scans the namespace. -/
theorem simple_extraction_no_scan_counterexample :
    extract_simple nsScanOnly = SimpleExtract.noData ∧
      ("t", PyVal.vDataFrame ["a"] [[PyVal.vNum (mkRat 1 1)]]) ∈ nsScanOnly ∧
      nsGet nsScanOnly "results" = some (PyVal.vDict []) ∧
      nsGet nsScanOnly "result" = some PyVal.vNone :=
  ⟨rfl, List.Mem.tail _ (List.Mem.tail _ (List.Mem.head _)), rfl, rfl⟩

/-- C1 (amended): simple-mode extraction uses the populated `results`
mapping, else wraps a populated `result` as the single table `查询结果`,
else reports "no data" with *no* namespace scan; analysis-mode extraction
uses the populated `result`, else adopts the first DataFrame bound under a
name other than `df` (reporting "no data" only if none exists), and never
consults a `results` mapping. -/
theorem result_extraction_policy :
    (∀ (ctx : PyNamespace) (entries : List (PyVal × PyVal)),
        nsGet ctx "results" = some (PyVal.vDict entries) → entries ≠ [] →
        extract_simple ctx =
          SimpleExtract.tables (entries.map fun kv => (kv.1, normalize_result kv.2))) ∧
      (∀ (ctx : PyNamespace) (v : PyVal),
        optTruth (nsGet ctx "results") = some false →
        nsGet ctx "result" = some v → isNoneV v = false →
        extract_simple ctx =
          SimpleExtract.tables [(PyVal.vStr "查询结果", normalize_result v)]) ∧
      (∀ ctx : PyNamespace,
        optTruth (nsGet ctx "results") = some false → resultSlotNone ctx = true →
        extract_simple ctx = SimpleExtract.noData) ∧
      (∀ (ctx : PyNamespace) (v : PyVal),
        nsGet ctx "result" = some v → isNoneV v = false →
        extract_angle ctx = some v) ∧
      (∀ ctx : PyNamespace, resultSlotNone ctx = true →
        extract_angle ctx =
          (ctx.find? fun kv => isDataFrameV kv.2 && kv.1 != "df").map fun kv => kv.2) := by
  refine ⟨?_, ?_, ?_, ?_, ?_⟩
  · intro ctx entries h hne
    cases entries with
    | nil => exact absurd rfl hne
    | cons kv rest => simp [extract_simple, h, optTruth, pyTruth]
  · intro ctx v hfr h hnn
    simp [extract_simple, hfr, h, hnn, pyTruth]
  · intro ctx hfr hrn
    cases hger : nsGet ctx "result" with
    | none =>
      cases hres : nsGet ctx "results" with
      | none => simp [extract_simple, hres, hger, optTruth]
      | some w =>
        rw [hres] at hfr
        have hpw : pyTruth w = some false := hfr
        simp [extract_simple, hres, hger, optTruth, hpw]
    | some v =>
      have hv : isNoneV v = true := by simpa [resultSlotNone, hger] using hrn
      cases hres : nsGet ctx "results" with
      | none => simp [extract_simple, hres, hger, hv, optTruth]
      | some w =>
        rw [hres] at hfr
        have hpw : pyTruth w = some false := hfr
        simp [extract_simple, hres, hger, hv, optTruth, hpw]
  · intro ctx v h hnn
    simp [extract_angle, h, hnn]
  · intro ctx hrn
    unfold resultSlotNone at hrn
    cases hger : nsGet ctx "result" with
    | none =>
      cases hf : ctx.find? fun kv => isDataFrameV kv.2 && kv.1 != "df" with
      | none => simp [extract_angle, hger, hf]
      | some kv => simp [extract_angle, hger, hf]
    | some v =>
      have hv : isNoneV v = true := by simpa [resultSlotNone, hger] using hrn
      cases hf : ctx.find? fun kv => isDataFrameV kv.2 && kv.1 != "df" with
      | none => simp [extract_angle, hger, hv, hf]
      | some kv => simp [extract_angle, hger, hv, hf]

/-- C1 witness: a populated `results` mapping is used in simple mode. -/
theorem result_extraction_policy_witness :
    extract_simple nsResults =
      SimpleExtract.tables
        [(PyVal.vStr "T", PyVal.vDataFrame ["a"] [[PyVal.vNum (mkRat 2 1)]])] :=
  result_extraction_policy.1 nsResults
    [(PyVal.vStr "T", PyVal.vDataFrame ["a"] [[PyVal.vNum (mkRat 2 1)]])]
    rfl (fun h => List.noConfusion h)

/-- The accumulated delays in closed form. -/
theorem delaysFrom_eq : ∀ (k i : Nat),
    delaysFrom i k = (List.range k).map fun j => base_delay * 2 ^ (i + j) := by
  intro k
  induction k with
  | zero => intro i; rfl
  | succ k ih =>
    intro i
    rw [List.range_succ_eq_map, List.map_cons, List.map_map]
    rw [delaysFrom, ih (i + 1)]
    congr 1
    apply List.map_congr_left
    intro j _
    simp only [Function.comp]
    rw [show i + 1 + j = i + Nat.succ j from by omega]

/-- Skipping `k` consecutive rate-limited attempts from attempt `i`
accumulates the backoff delays of attempts `i, …, i+k-1` and `k` calls. -/
theorem sgcGo_skip (f : Nat → CallOutcome) :
    ∀ (k i rem : Nat), 0 < rem →
      (∀ j, j < k → f (i + j) = CallOutcome.rateLimit) →
      sgcGo f i (k + rem) =
        ((sgcGo f (i + k) rem).1,
          delaysFrom i k ++ (sgcGo f (i + k) rem).2.1,
          (sgcGo f (i + k) rem).2.2 + k) := by
  intro k
  induction k with
  | zero =>
    intro i rem _ _
    simp [delaysFrom]
  | succ k ih =>
    intro i rem hrem hall
    have hfi : f i = CallOutcome.rateLimit := by simpa using hall 0 (Nat.succ_pos k)
    have hall' : ∀ j, j < k → f (i + 1 + j) = CallOutcome.rateLimit := fun j hj => by
      rw [show i + 1 + j = i + (j + 1) from by omega]
      exact hall (j + 1) (by omega)
    rw [show k + 1 + rem = (k + rem) + 1 from by omega]
    simp only [sgcGo, hfi]
    rw [if_pos (show 0 < k + rem from by omega)]
    rw [ih (i + 1) rem hrem hall']
    rw [show i + 1 + k = i + (k + 1) from by omega]
    simp [delaysFrom, Nat.add_assoc]

/-- C3: with the source's retry ceiling of 6 — (a) `k < 6` rate-limited
attempts followed by a success return the response after exactly the
delays `base_delay * 2 ^ 0 … base_delay * 2 ^ (k-1)` and `k + 1` calls;
(b) rate limiting on every attempt re-raises the rate-limit error after
exactly 6 calls (5 waits); (c) a non-rate-limit error after `k`
rate-limited attempts propagates at once — one further call, no further
wait. -/
theorem retry_backoff_protocol :
    (∀ (f : Nat → CallOutcome) (k v : Nat), k < 6 →
        (∀ j, j < k → f j = CallOutcome.rateLimit) → f k = CallOutcome.ok v →
        safe_generate_content f =
          (CallResult.success v, (List.range k).map fun j => base_delay * 2 ^ j, k + 1)) ∧
      (∀ f : Nat → CallOutcome, (∀ j, j < 6 → f j = CallOutcome.rateLimit) →
        safe_generate_content f =
          (CallResult.errRateLimit, (List.range 5).map fun j => base_delay * 2 ^ j, 6)) ∧
      (∀ (f : Nat → CallOutcome) (k : Nat), k < 6 →
        (∀ j, j < k → f j = CallOutcome.rateLimit) → f k = CallOutcome.otherError →
        safe_generate_content f =
          (CallResult.errOther, (List.range k).map fun j => base_delay * 2 ^ j, k + 1)) := by
  refine ⟨?_, ?_, ?_⟩
  · intro f k v hk hrl hok
    have h := sgcGo_skip f k 0 (6 - k) (by omega) (by intro j hj; simpa using hrl j hj)
    unfold safe_generate_content
    rw [show (6 : Nat) = k + (6 - k) from by omega, h]
    obtain ⟨m, hm⟩ : ∃ m, 6 - k = m + 1 := ⟨6 - k - 1, by omega⟩
    rw [hm, show (0 + k) = k from by omega]
    simp only [sgcGo, hok]
    simp [delaysFrom_eq, Nat.add_comm]
  · intro f hrl
    have h := sgcGo_skip f 5 0 1 (by omega) (by intro j hj; simpa using hrl j (by omega))
    unfold safe_generate_content
    rw [show (6 : Nat) = 5 + 1 from rfl, h]
    have h5 : f (0 + 5) = CallOutcome.rateLimit := by simpa using hrl 5 (by omega)
    simp only [sgcGo, h5]
    simp [delaysFrom_eq]
  · intro f k hk hrl hoth
    have h := sgcGo_skip f k 0 (6 - k) (by omega) (by intro j hj; simpa using hrl j hj)
    unfold safe_generate_content
    rw [show (6 : Nat) = k + (6 - k) from by omega, h]
    obtain ⟨m, hm⟩ : ∃ m, 6 - k = m + 1 := ⟨6 - k - 1, by omega⟩
    rw [hm, show (0 + k) = k from by omega]
    simp only [sgcGo, hoth]
    simp [delaysFrom_eq, Nat.add_comm]

/-- C3 witness: the three behaviours instantiated concretely. -/
theorem retry_backoff_witness :
    safe_generate_content behOkAfter2 = (CallResult.success 7, [10, 20], 3) ∧
      safe_generate_content behAlwaysRL =
        (CallResult.errRateLimit, [10, 20, 40, 80, 160], 6) ∧
      safe_generate_content behOtherAfter1 = (CallResult.errOther, [10], 2) := by
  refine ⟨?_, ?_, ?_⟩
  · exact retry_backoff_protocol.1 behOkAfter2 2 7 (by omega)
      (fun j hj => by interval_cases j <;> rfl) rfl
  · exact retry_backoff_protocol.2.1 behAlwaysRL (fun j hj => rfl)
  · exact retry_backoff_protocol.2.2 behOtherAfter1 1 (by omega)
      (fun j hj => by interval_cases j; rfl) rfl

/-- Inversion for the lexicographic order on cons cells. -/
theorem lex_cons_inv {a b : Char} {as bs : List Char}
    (h : List.Lex (· < ·) (a :: as) (b :: bs)) :
    a < b ∨ (a = b ∧ List.Lex (· < ·) as bs) := by
  cases h with
  | rel hab => exact Or.inl hab
  | cons h' => exact Or.inr ⟨rfl, h'⟩

/-- The boolean character-list comparison is lexicographic: it holds
exactly when the first list is `Lex (· < ·)`-below the second or equal. -/
theorem charListLe_iff : ∀ l₁ l₂ : List Char,
    charListLe l₁ l₂ = true ↔ List.Lex (· < ·) l₁ l₂ ∨ l₁ = l₂
  | [], [] => by simp [charListLe]
  | [], b :: bs => by
    simp only [charListLe, true_iff]
    exact Or.inl List.Lex.nil
  | a :: as, [] => by
    simp only [charListLe, Bool.false_eq_true, false_iff]
    rintro (h | h)
    · exact List.Lex.not_nil_right _ _ h
    · cases h
  | a :: as, b :: bs => by
    simp only [charListLe, Bool.or_eq_true, Bool.and_eq_true, decide_eq_true_eq, beq_iff_eq]
    constructor
    · rintro (hab | ⟨rfl, h⟩)
      · exact Or.inl (List.Lex.rel hab)
      · rcases (charListLe_iff as bs).mp h with h' | rfl
        · exact Or.inl (List.Lex.cons h')
        · exact Or.inr rfl
    · rintro (hlex | heq)
      · rcases lex_cons_inv hlex with hab | ⟨rfl, h'⟩
        · exact Or.inl hab
        · exact Or.inr ⟨rfl, (charListLe_iff as bs).mpr (Or.inl h')⟩
      · cases heq
        exact Or.inr ⟨rfl, (charListLe_iff as as).mpr (Or.inr rfl)⟩

/-- The boolean string comparison agrees with the `String` linear order. -/
theorem py_str_le_iff (a b : String) : py_str_le a b = true ↔ a ≤ b := by
  rw [py_str_le, charListLe_iff, le_iff_lt_or_eq, String.lt_iff_toList_lt]
  constructor
  · rintro (h | h)
    · exact Or.inl h
    · exact Or.inr (String.toList_inj.mp h)
  · rintro (h | h)
    · exact Or.inl h
    · exact Or.inr (String.toList_inj.mpr h)

/-- The output of the Python-style sort is ascending for `≤`. -/
theorem sorted_py_sorted (l : List String) : List.Sorted (· ≤ ·) (py_sorted l) := by
  haveI htot : IsTotal String fun a b => py_str_le a b = true := ⟨fun a b => by
    rcases le_total a b with h | h
    · exact Or.inl ((py_str_le_iff a b).mpr h)
    · exact Or.inr ((py_str_le_iff b a).mpr h)⟩
  haveI htrans : IsTrans String fun a b => py_str_le a b = true := ⟨fun a b c hab hbc =>
    (py_str_le_iff a c).mpr
      (le_trans ((py_str_le_iff a b).mp hab) ((py_str_le_iff b c).mp hbc))⟩
  have h := List.sorted_insertionSort (fun a b : String => py_str_le a b = true) l
  exact h.imp fun hab => (py_str_le_iff _ _).mp hab

/-- Inversion of a successful `analyze_time_structure`: the context is
built by `mkTimeContext` from the sorted distinct values of the detected
column. -/
theorem analyze_time_structure_inv (cols : List Column) (ctx : TimeContext)
    (h : analyze_time_structure cols = some ctx) :
    ∃ (c : Column) (maxq minq : String),
      detect_time_col cols = some c ∧
        ctx = mkTimeContext c.name (py_sorted (py_unique c.values)) maxq minq := by
  unfold analyze_time_structure at h
  cases hdet : detect_time_col cols with
  | none => rw [hdet] at h; cases h
  | some c =>
    rw [hdet] at h
    simp only [Option.some_bind] at h
    cases hlast : (py_sorted (py_unique c.values)).getLast? with
    | none => rw [hlast] at h; cases h
    | some maxq =>
      rw [hlast] at h
      cases hhead : (py_sorted (py_unique c.values)).head? with
      | none => rw [hhead] at h; cases h
      | some minq =>
        rw [hhead] at h
        injection h with h2
        exact ⟨c, maxq, minq, rfl, h2.symm⟩

/-- C4: for a dataset with a detected period column — with at least 8
distinct period labels, MAT-prior is exactly the 4 labels immediately
preceding MAT and the completeness flag is true; with fewer than 4
distinct labels, MAT is the full sorted period set and the flag is false;
and in every case MAT is the final segment of at most 4 labels of the
ascending lexicographic sort. -/
theorem mat_window_structure (cols : List Column) (ctx : TimeContext)
    (h : analyze_time_structure cols = some ctx) :
    (8 ≤ ctx.all_periods.length →
        ctx.mat_list_prior.length = 4 ∧
          ctx.mat_list_prior ++ ctx.mat_list =
            ctx.all_periods.drop (ctx.all_periods.length - 8) ∧
          ctx.is_mat_complete = true) ∧
      (ctx.all_periods.length < 4 →
        ctx.mat_list = ctx.all_periods ∧ ctx.is_mat_complete = false) ∧
      ctx.mat_list = ctx.all_periods.drop (ctx.all_periods.length - 4) ∧
      List.Sorted (· ≤ ·) ctx.all_periods := by
  obtain ⟨c, maxq, minq, -, rfl⟩ := analyze_time_structure_inv cols ctx h
  set sp := py_sorted (py_unique c.values) with hsp
  refine ⟨?_, ?_, ?_, ?_⟩
  · intro h8
    have h8' : 8 ≤ sp.length := h8
    refine ⟨?_, ?_, ?_⟩
    · simp only [mkTimeContext, if_pos h8']
      simp [List.length_take, List.length_drop]
      omega
    · simp only [mkTimeContext, if_pos h8', if_pos (show 4 ≤ sp.length from by omega)]
      have hdd : List.drop 4 (List.drop (sp.length - 8) sp) = List.drop (sp.length - 4) sp := by
        rw [List.drop_drop]
        congr 1
        omega
      rw [← hdd]
      exact List.take_append_drop 4 (sp.drop (sp.length - 8))
    · simp [mkTimeContext, if_pos h8']
  · intro h4
    have h4' : sp.length < 4 := h4
    constructor
    · simp [mkTimeContext, if_neg (show ¬4 ≤ sp.length from by omega)]
    · simp [mkTimeContext, if_neg (show ¬8 ≤ sp.length from by omega),
        if_neg (show ¬4 ≤ sp.length from by omega)]
  · by_cases h4 : 4 ≤ sp.length
    · simp [mkTimeContext, if_pos h4]
    · simp only [mkTimeContext, if_neg h4]
      rw [show sp.length - 4 = 0 from by omega]
      simp
  · exact sorted_py_sorted (py_unique c.values)

/-- C4 witness: a dataset with 8 distinct quarters. -/
theorem mat_window_structure_witness :
    ctx0.mat_list_prior.length = 4 ∧
      ctx0.mat_list_prior ++ ctx0.mat_list =
        ctx0.all_periods.drop (ctx0.all_periods.length - 8) ∧
      ctx0.is_mat_complete = true :=
  (mat_window_structure cols0 ctx0 rfl).1 (by decide)

/-- C5: for a detected period column whose latest label carries a 4-digit
year token, every YTD-prior label is an actual distinct period label of
the dataset obtained from some YTD label by substituting the prior year
for the current year — labels without an existing prior-year counterpart
are excluded, never fabricated. -/
theorem ytd_prior_subset (cols : List Column) (ctx : TimeContext) (y : String)
    (h : analyze_time_structure cols = some ctx)
    (hy : findYear4 ctx.max_q.toList = some y) :
    ∀ p ∈ ctx.ytd_list_prior,
      p ∈ ctx.all_periods ∧ ∃ q ∈ ctx.ytd_list, p = pyReplace q y (prevYearStr y) := by
  obtain ⟨c, maxq, minq, -, rfl⟩ := analyze_time_structure_inv cols ctx h
  set sp := py_sorted (py_unique c.values) with hsp
  have hy' : findYear4 maxq.toList = some y := hy
  intro p hp
  have hp' : p ∈ (ytdWindows sp maxq).2 := hp
  rw [ytdWindows, hy'] at hp'
  simp only [List.mem_filter] at hp'
  obtain ⟨hmem, hcont⟩ := hp'
  refine ⟨hmem, ?_⟩
  have hexp : p ∈ ((sp.filter fun q => strContains q y).map
      fun q => pyReplace q y (prevYearStr y)) := by
    simpa using hcont
  obtain ⟨q, hq, hrepl⟩ := List.mem_map.mp hexp
  refine ⟨q, ?_, hrepl.symm⟩
  show q ∈ (ytdWindows sp maxq).1
  rw [ytdWindows, hy']
  exact hq

/-- C5 witness: in `cols0`, `2023Q1` is a YTD-prior label, is an actual
period, and arises from the YTD label `2024Q1` by year substitution. -/
theorem ytd_prior_subset_witness :
    "2023Q1" ∈ ctx0.all_periods ∧
      ∃ q ∈ ctx0.ytd_list, "2023Q1" = pyReplace q "2024" (prevYearStr "2024") :=
  ytd_prior_subset cols0 ctx0 "2024" rfl rfl "2023Q1" (by decide)

end ChatBI
